import Mathlib

/-!
Verification development for the python backend relay (`python-backend/main.py`).

The service is a FastAPI relay: it receives a recognized intent, looks it up
in a static `INTENT_CONFIG` table, fetches a dataset from the MCP data
provider over HTTP, substitutes it into a fixed prompt template, sends the
prompt to the Gemini insight generator, parses the generator's JSON reply
(after stripping a markdown code fence), and returns a structured response.

The embedding below models the program's pure logic directly from the source.
External I/O (the provider's HTTP responses, the generator's replies, the
startup handshake outcomes) is passed in explicitly as oracle arguments, and
every function additionally returns the list of network calls it issued, so
that claims about "zero network calls" and "no retry" are statable.
-/

namespace FiMcpBackend

/-- JSON values, as produced by Python's `json.loads`.  Numbers are modelled
as integers: every numeric literal appearing in the program's data and in the
specification's test vectors is an integer, and the float/exponent grammar is
not exercised. -/
inductive Json where
  | null : Json
  | bool (b : Bool) : Json
  | num (n : Int) : Json
  | str (s : String) : Json
  | arr (elems : List Json) : Json
  | obj (fields : List (String × Json)) : Json

/-- JSON insignificant whitespace, as accepted by Python's `json` module. -/
def isJsonWs (c : Char) : Bool :=
  c == ' ' || c == '\t' || c == '\n' || c == '\r'

/-- Skip leading JSON whitespace. -/
def skipWs : List Char → List Char
  | c :: cs => if isJsonWs c then skipWs cs else c :: cs
  | [] => []

/-- Translate a JSON string escape character to the character it denotes. -/
def unescapeChar (c : Char) : Char :=
  if c == 'n' then '\n'
  else if c == 't' then '\t'
  else if c == 'r' then '\r'
  else if c == 'b' then '\x08'
  else if c == 'f' then '\x0c'
  else c

/-- Parse the body of a JSON string after the opening quote, up to and
including the closing quote.  Returns the decoded characters and the rest of
the input. -/
def parseStringChars : List Char → Option (List Char × List Char)
  | '"' :: cs => some ([], cs)
  | '\\' :: c :: cs =>
    match parseStringChars cs with
    | some (s, rest) => some (unescapeChar c :: s, rest)
    | none => none
  | c :: cs =>
    if c == '\\' then none
    else
      match parseStringChars cs with
      | some (s, rest) => some (c :: s, rest)
      | none => none
  | [] => none

/-- Take a maximal run of leading decimal digits. -/
def takeDigits : List Char → (List Char × List Char)
  | c :: cs =>
    if c.isDigit then
      let (ds, rest) := takeDigits cs
      (c :: ds, rest)
    else ([], c :: cs)
  | [] => ([], [])

/-- Numeric value of a list of decimal digits. -/
def digitsToNat (ds : List Char) : Nat :=
  ds.foldl (fun acc c => acc * 10 + (c.toNat - 48)) 0

mutual

/-- Fueled recursive-descent parser for a JSON value.  The fuel bounds the
recursion depth; `jsonLoads` supplies `length + 1`, which exceeds any
possible nesting depth. -/
def parseValue (fuel : Nat) (input : List Char) : Option (Json × List Char) :=
  match fuel with
  | 0 => none
  | fuel' + 1 =>
    match skipWs input with
    | 'n' :: 'u' :: 'l' :: 'l' :: rest => some (.null, rest)
    | 't' :: 'r' :: 'u' :: 'e' :: rest => some (.bool true, rest)
    | 'f' :: 'a' :: 'l' :: 's' :: 'e' :: rest => some (.bool false, rest)
    | '"' :: rest =>
      match parseStringChars rest with
      | some (cs, rest') => some (.str (String.mk cs), rest')
      | none => none
    | '[' :: rest =>
      (match skipWs rest with
       | ']' :: rest' => some (.arr [], rest')
       | other => match parseElems fuel' other with
         | some (vs, rest') => some (.arr vs, rest')
         | none => none)
    | '\x7b' :: rest =>
      (match skipWs rest with
       | '\x7d' :: rest' => some (.obj [], rest')
       | other => match parseMembers fuel' other with
         | some (fs, rest') => some (.obj fs, rest')
         | none => none)
    | '-' :: rest =>
      (match takeDigits rest with
       | ([], _) => none
       | (ds, rest') => some (.num (-(digitsToNat ds : Int)), rest'))
    | c :: rest =>
      if c.isDigit then
        match takeDigits (c :: rest) with
        | (ds, rest') => some (.num (digitsToNat ds), rest')
      else none
    | [] => none
termination_by structural fuel

/-- Parse one or more comma-separated array elements followed by `]`. -/
def parseElems (fuel : Nat) (input : List Char) : Option (List Json × List Char) :=
  match fuel with
  | 0 => none
  | fuel' + 1 =>
    match parseValue fuel' input with
    | none => none
    | some (v, rest) =>
      match skipWs rest with
      | ',' :: rest' =>
        (match parseElems fuel' rest' with
         | some (vs, rest'') => some (v :: vs, rest'')
         | none => none)
      | ']' :: rest' => some ([v], rest')
      | _ => none
termination_by structural fuel

/-- Parse one or more comma-separated object members followed by `}`. -/
def parseMembers (fuel : Nat) (input : List Char) :
    Option (List (String × Json) × List Char) :=
  match fuel with
  | 0 => none
  | fuel' + 1 =>
    match skipWs input with
    | '"' :: rest =>
      (match parseStringChars rest with
       | none => none
       | some (key, rest') =>
         match skipWs rest' with
         | ':' :: rest'' =>
           (match parseValue fuel' rest'' with
            | none => none
            | some (v, rest3) =>
              match skipWs rest3 with
              | ',' :: rest4 =>
                (match parseMembers fuel' rest4 with
                 | some (fs, rest5) => some ((String.mk key, v) :: fs, rest5)
                 | none => none)
              | '\x7d' :: rest4 => some ([(String.mk key, v)], rest4)
              | _ => none)
         | _ => none)
    | _ => none
termination_by structural fuel

end

/-- Model of Python's `json.loads`: parse the entire text as a single JSON
value, allowing surrounding whitespace; `none` models `json.JSONDecodeError`. -/
def jsonLoads (s : String) : Option Json :=
  match parseValue (s.data.length + 1) s.data with
  | some (j, rest) => if skipWs rest = [] then some j else none
  | none => none

/-! ### Python string primitives used by the source -/

/-- The whitespace characters removed by Python's `str.strip()`. -/
def isPyStripWs (c : Char) : Bool :=
  c == ' ' || c == '\t' || c == '\n' || c == '\r' || c == '\x0b' || c == '\x0c'

/-- Python's `str.strip()`: remove leading and trailing whitespace. -/
def pyStrip (s : String) : String :=
  String.mk (((s.data.dropWhile isPyStripWs).reverse.dropWhile isPyStripWs).reverse)

/-- Python's `str.startswith(pre)`. -/
def pyStartsWith (s pre : String) : Bool := pre.data.isPrefixOf s.data

/-- Escape one character for a JSON string literal (`json.dumps`). -/
def escapeJsonChar (c : Char) : List Char :=
  if c == '"' then ['\\', '"']
  else if c == '\\' then ['\\', '\\']
  else if c == '\n' then ['\\', 'n']
  else if c == '\t' then ['\\', 't']
  else if c == '\r' then ['\\', 'r']
  else [c]

/-- Serialize a string as a quoted JSON string literal. -/
def jsonQuote (s : String) : String :=
  String.mk ('"' :: (s.data.map escapeJsonChar).flatten ++ ['"'])

/-- Decimal digits of a natural number (fueled; fuel `n + 1` suffices). -/
def natToChars (fuel n : Nat) : List Char :=
  match fuel with
  | 0 => []
  | fuel' + 1 =>
    if n < 10 then [Char.ofNat (48 + n)]
    else natToChars fuel' (n / 10) ++ [Char.ofNat (48 + n % 10)]

/-- Decimal rendering of a natural number, as Python's `str`. -/
def natToString (n : Nat) : String := String.mk (natToChars (n + 1) n)

/-- Decimal rendering of an integer, as Python's `str`. -/
def intToString (n : Int) : String :=
  if n < 0 then "-" ++ natToString n.natAbs else natToString n.natAbs

/-- A run of `n` spaces. -/
def indentChars (n : Nat) : String := String.mk (List.replicate n ' ')

/-- Model of Python's `json.dumps(·, indent=2)` at indentation level `ind`:
containers are split over lines, nested members indented two further spaces. -/
def jsonDumpsAux (ind : Nat) (j : Json) : String :=
  match j with
  | .null => "null"
  | .bool b => if b then "true" else "false"
  | .num n => intToString n
  | .str s => jsonQuote s
  | .arr [] => "[]"
  | .arr (e :: es) =>
    let items := (e :: es).attach.map
      (fun x => indentChars (ind + 2) ++ jsonDumpsAux (ind + 2) x.1)
    "[\n" ++ String.intercalate ",\n" items ++ "\n" ++ indentChars ind ++ "]"
  | .obj [] => "\x7b\x7d"
  | .obj (f :: fs) =>
    let items := (f :: fs).attach.map
      (fun x => indentChars (ind + 2) ++ jsonQuote x.1.1 ++ ": " ++
        jsonDumpsAux (ind + 2) x.1.2)
    "\x7b\n" ++ String.intercalate ",\n" items ++ "\n" ++ indentChars ind ++ "\x7d"
termination_by sizeOf j
decreasing_by
· have h := List.sizeOf_lt_of_mem x.2
  simp only [List.cons.sizeOf_spec] at h
  simp_wf
  omega
· have h := List.sizeOf_lt_of_mem x.2
  have h2 : sizeOf x.1.2 < sizeOf x.1 := by
    obtain ⟨⟨k, v⟩, hm⟩ := x
    simp
  simp only [List.cons.sizeOf_spec, Prod.mk.sizeOf_spec] at h
  simp_wf
  omega

/-- `json.dumps(mcp_data, indent=2)` as used when rendering the prompt. -/
def jsonDumps (j : Json) : String := jsonDumpsAux 0 j

/-- Replace every occurrence of `pat` (non-empty) in `input` by `repl`,
scanning left to right (fueled; fuel `input.length` suffices). -/
def replaceAll (fuel : Nat) (pat repl input : List Char) : List Char :=
  match fuel with
  | 0 => input
  | fuel' + 1 =>
    match input with
    | [] => []
    | c :: cs =>
      if pat.isPrefixOf (c :: cs) then
        repl ++ replaceAll fuel' pat repl (List.drop pat.length (c :: cs))
      else
        c :: replaceAll fuel' pat repl cs

/-- Model of `prompt_template.format(mcp_data=data)`: the shipped templates
contain a single `{mcp_data}` placeholder and no other brace field, so
`str.format` reduces to substituting that placeholder. -/
def formatPrompt (template data : String) : String :=
  String.mk (replaceAll template.data.length "\x7bmcp_data\x7d".data data.data template.data)

/-! ### Embedding of `python-backend/main.py`

External I/O appears as oracle arguments:
* `provider : String → ProviderOutcome` gives, per tool name, the outcome of
  the `POST {base}/mcp/stream` call made inside `call_mcp_tool`;
* `generator : String → GenOutcome` gives, per rendered prompt, the outcome
  of the Gemini `generate_content_async` call;
* the two `HttpCallResult` arguments of `startup_event` give the outcomes of
  the `GET /mockWebPage` and `POST /login` handshake calls.
Each operation also returns the list of network calls it issued. -/

/-- Outcome of the provider tool-invocation HTTP call, at the boundary httpx
exposes to `call_mcp_tool`: a 2xx response whose body parses as JSON
(`response.raise_for_status()` passes and `response.json()` succeeds), an
`httpx.HTTPStatusError` raised by `raise_for_status()` on a non-2xx status
(carrying the status code and response text), or any other exception
(network, timeout, transport, body-decode), carrying its `str()`. -/
inductive ProviderOutcome where
  | ok (body : Json)
  | httpStatusError (status_code : Nat) (text : String)
  | transportError (msg : String)

/-- Outcome of the insight-generator call: its response text, or an
exception carrying its `str()`. -/
inductive GenOutcome where
  | text (s : String)
  | failure (msg : String)

/-- A Python exception as it propagates to `process_agent_request`:
a FastAPI `HTTPException` (status code and detail), or any other
exception carrying its message. -/
inductive PyError where
  | httpExc (status_code : Nat) (detail : String)
  | exc (msg : String)
deriving DecidableEq

/-- One outbound network call issued while handling a request. -/
inductive NetCall where
  | toolCall (tool_name : String)
  | generatorCall
deriving DecidableEq

/-- Python truthiness test `not GLOBAL_MCP_SESSION_ID` on the session slot:
true for `None` and for the empty string. -/
def pyFalsy : Option String → Bool
  | none => true
  | some s => s.data.isEmpty

/-- `call_mcp_tool` from `main.py`: requires an established session, then
POSTs `{tool_name, params: {}}` to the provider; non-2xx statuses become a
500 `HTTPException` carrying the status code and body, any other failure a
500 carrying its message.  Returns the result together with the tool calls
issued. -/
def call_mcp_tool (session : Option String) (provider : String → ProviderOutcome)
    (tool_name : String) : Except PyError Json × List NetCall :=
  if pyFalsy session then
    (.error (.httpExc 500 "MCP session not established during startup."), [])
  else
    match provider tool_name with
    | .ok body => (.ok body, [.toolCall tool_name])
    | .httpStatusError status_code text =>
      (.error (.httpExc 500 ("MCP Server returned an error: " ++
          natToString status_code ++ ". Body: " ++ text)),
       [.toolCall tool_name])
    | .transportError msg => (.error (.httpExc 500 msg), [.toolCall tool_name])

/-- The fence-cleaning step of `get_financial_insight`: if the generator text
starts with ```` ```json ````, take the Python slice `[7:-3]` (characters
from index 7 up to three before the end, clamped to empty when the string is
too short) and strip surrounding whitespace; otherwise leave the text as is. -/
def stripJsonFence (s : String) : String :=
  if pyStartsWith s "```json" then
    pyStrip (String.mk ((s.data.drop 7).take (s.data.length - 10)))
  else s

/-- Modelled: the `str()` of the `json.JSONDecodeError` raised by
`json.loads` on unparseable text.  Its exact wording is produced by the
Python standard library; here it is modelled as a function of the offending
text, which is all the program observes. -/
def jsonDecodeErrorMsg (s : String) : String :=
  "Expecting value while parsing: " ++ s

/-- Modelled: the `str()` of the pydantic `ValidationError` raised when
`FinancialInsightResponse(data=...)` receives a non-dict value. -/
def pydanticValidationErrorMsg : String :=
  "1 validation error for FinancialInsightResponse: data is not a valid dict"

/-- `get_financial_insight` from `main.py`: fetch the tool payload, render
the prompt by substituting the payload serialized with
`json.dumps(..., indent=2)`, call the generator, clean a markdown JSON fence
from its text, and parse the remainder as JSON.  A `json.loads` failure is an
ordinary (non-HTTP) exception.  Returns the result together with the network
calls issued, in order. -/
def get_financial_insight (session : Option String) (provider : String → ProviderOutcome)
    (generator : String → GenOutcome) (tool_name : String) (prompt_template : String) :
    Except PyError Json × List NetCall :=
  match call_mcp_tool session provider tool_name with
  | (.error e, calls) => (.error e, calls)
  | (.ok mcp_data, calls) =>
    let prompt := formatPrompt prompt_template (jsonDumps mcp_data)
    match generator prompt with
    | .failure msg => (.error (.exc msg), calls ++ [.generatorCall])
    | .text t =>
      let insight_json_string := stripJsonFence t
      match jsonLoads insight_json_string with
      | some j => (.ok j, calls ++ [.generatorCall])
      | none => (.error (.exc (jsonDecodeErrorMsg insight_json_string)),
                 calls ++ [.generatorCall])

/-- `AgentBuilderRequest` from `main.py`: the caller-supplied body of
`POST /process_agent_request`. -/
structure AgentBuilderRequest where
  intent : String
  entities : List (String × Json)
  session_id : String

/-- `FinancialInsightResponse` from `main.py`: the success response model;
pydantic requires `data` to be a dict. -/
structure FinancialInsightResponse where
  status : String
  message : String
  data : Json

/-- One value of the `INTENT_CONFIG` table. -/
structure IntentConfigEntry where
  tool_name : String
  prompt_template : String
  message : String
deriving DecidableEq

/-- Result of one request to `POST /process_agent_request`: a 200 success
body, or an HTTP error response with status code and detail. -/
inductive ProcessResult where
  | success (resp : FinancialInsightResponse)
  | httpError (status_code : Nat) (detail : String)

/-- `SPENDING_ANALYSIS_PROMPT` from `main.py`. -/
def SPENDING_ANALYSIS_PROMPT : String :=
  "\nYou are a helpful financial assistant. Analyze the following bank transactions to provide a summary of spending habits. Highlight top 3 spending categories and any unusual or large transactions.\n\nTransaction Data:\n\x7bmcp_data\x7d\n\nPlease provide a structured JSON response with a \x27summary\x27 string, a \x27categories\x27 dictionary (category: total_amount), and a \x27notable_transactions\x27 list.\n"

/-- `NET_WORTH_PROMPT` from `main.py`. -/
def NET_WORTH_PROMPT : String :=
  "\nYou are a helpful financial assistant. Summarize the user\x27s net worth based on the following data. Highlight the total net worth and provide a breakdown by asset and liability types.\n\nNet Worth Data:\n\x7bmcp_data\x7d\n\nProvide a structured JSON response with a \x27summary\x27 string and a \x27details\x27 dictionary containing \x27total_net_worth\x27, \x27assets\x27, and \x27liabilities\x27.\n"

/-- `CREDIT_REPORT_PROMPT` from `main.py`. -/
def CREDIT_REPORT_PROMPT : String :=
  "\nYou are a helpful financial assistant. Analyze the user\x27s credit report data. Summarize the credit score, active loans, credit utilization, and any notable history. Also, state the date of birth from the report.\n\nCredit Report Data:\n\x7bmcp_data\x7d\n\nProvide a structured JSON response with a \x27summary\x27 string, \x27credit_score\x27 (int), \x27active_accounts\x27 (list), and \x27date_of_birth\x27 (string YYYY-MM-DD).\n"

/-- `INTENT_CONFIG` from `main.py`: the static intent-dispatch table. -/
def INTENT_CONFIG : List (String × IntentConfigEntry) :=
  [("analyze_spending",
    ⟨"fetch_bank_transactions", SPENDING_ANALYSIS_PROMPT,
     "Here\x27s a summary of your spending habits:"⟩),
   ("fetch_net_worth",
    ⟨"fetch_net_worth", NET_WORTH_PROMPT,
     "Here\x27s your net worth summary:"⟩),
   ("fetch_credit_report",
    ⟨"fetch_credit_report", CREDIT_REPORT_PROMPT,
     "Here\x27s your credit report summary:"⟩)]

/-- `INTENT_CONFIG.get(request.intent)`: pure lookup in the static table. -/
def INTENT_CONFIG_get (intent : String) : Option IntentConfigEntry :=
  INTENT_CONFIG.lookup intent

/-- Initial value of the process-wide `GLOBAL_MCP_SESSION_ID` slot. -/
def GLOBAL_MCP_SESSION_ID_init : Option String := none

/-- Outcome of one handshake HTTP call as httpx exposes it to
`startup_event`: a completed response (with whatever status code — the
startup code never calls `raise_for_status`, so no status raises), or a
raised exception (network/transport failure), carrying its `str()`. -/
inductive HttpCallResult where
  | response (status_code : Nat) (body : String)
  | raiseError (msg : String)
deriving DecidableEq

/-- `startup_event` from `main.py`: run `GET /mockWebPage` then
`POST /login`; if either raises, the exception is caught and logged and the
global session slot `global0` is left unchanged; otherwise — regardless of
the HTTP status codes of the two responses, which are never inspected — the
slot is set to the backend session id.  Totality of this function reflects
that a handshake failure is not fatal to process startup. -/
def startup_event (backend_session_id : String) (mockWebPage : HttpCallResult)
    (login : HttpCallResult) (global0 : Option String) : Option String :=
  match mockWebPage with
  | .raiseError _ => global0
  | .response _ _ =>
    match login with
    | .raiseError _ => global0
    | .response _ _ => some backend_session_id

/-- `process_agent_request` from `main.py`: look the intent up in
`INTENT_CONFIG` (a 400 if absent), run `get_financial_insight`, build the
success response (pydantic rejecting a non-dict `data` inside the `try`
block), re-raise `HTTPException`s unchanged and wrap any other exception as
a 500 `"An internal error occurred: ..."`.  Returns the HTTP outcome
together with the network calls issued. -/
def process_agent_request (session : Option String) (provider : String → ProviderOutcome)
    (generator : String → GenOutcome) (request : AgentBuilderRequest) :
    ProcessResult × List NetCall :=
  match INTENT_CONFIG_get request.intent with
  | none =>
    (.httpError 400 ("Intent \x27" ++ request.intent ++ "\x27 not supported."), [])
  | some config =>
    match get_financial_insight session provider generator
        config.tool_name config.prompt_template with
    | (.ok insight_data, calls) =>
      (match insight_data with
       | .obj fields => (.success ⟨"success", config.message, .obj fields⟩, calls)
       | _ => (.httpError 500 ("An internal error occurred: " ++ pydanticValidationErrorMsg),
              calls))
    | (.error (.httpExc st d), calls) => (.httpError st d, calls)
    | (.error (.exc msg), calls) =>
      (.httpError 500 ("An internal error occurred: " ++ msg), calls)

/-! ### Helper lemmas -/

/-- A text wrapped in the markdown JSON fence starts with the fence marker. -/
theorem pyStartsWith_fence (inner : String) :
    pyStartsWith ("```json" ++ inner ++ "```") "```json" = true := by
  rw [pyStartsWith, List.isPrefixOf_iff_prefix, String.data_append, String.data_append]
  exact (List.prefix_append _ _).trans (List.prefix_append _ _)

/-- Cleaning a text wrapped in the markdown JSON fence yields the stripped
inner text: the slice `[7:-3]` removes exactly the two fence markers. -/
theorem stripJsonFence_fenced (inner : String) :
    stripJsonFence ("```json" ++ inner ++ "```") = pyStrip inner := by
  rw [stripJsonFence, pyStartsWith_fence]
  simp only [if_true]
  have hdata : ("```json" ++ inner ++ "```").data
      = "```json".data ++ (inner.data ++ "```".data) := by
    rw [String.data_append, String.data_append, List.append_assoc]
  have h7 : "```json".data.length = 7 := rfl
  rw [hdata]
  have hlen : ("```json".data ++ (inner.data ++ "```".data)).length - 10
      = inner.data.length := by
    simp [List.length_append]
  rw [hlen, ← h7, List.drop_left, List.take_left]

/-- When the session is live (`not GLOBAL_MCP_SESSION_ID` is false) and the
provider answers a tool call with a 2xx JSON body, `call_mcp_tool` returns
that body and issues exactly one tool call. -/
theorem call_mcp_tool_ok (session : Option String)
    (provider : String → ProviderOutcome) (tool_name : String) (body : Json)
    (hs : pyFalsy session = false) (hp : provider tool_name = .ok body) :
    call_mcp_tool session provider tool_name = (.ok body, [.toolCall tool_name]) := by
  rw [call_mcp_tool, hs, hp]
  rfl

/-- Successful run of `get_financial_insight`: live session, provider body,
generator text parsing (after fence cleaning) to `j`. -/
theorem get_financial_insight_ok (session : Option String)
    (provider : String → ProviderOutcome) (generator : String → GenOutcome)
    (tool_name prompt_template : String) (body : Json) (gtext : String) (j : Json)
    (hs : pyFalsy session = false) (hp : provider tool_name = .ok body)
    (hg : generator (formatPrompt prompt_template (jsonDumps body)) = .text gtext)
    (hj : jsonLoads (stripJsonFence gtext) = some j) :
    get_financial_insight session provider generator tool_name prompt_template
      = (.ok j, [.toolCall tool_name, .generatorCall]) := by
  rw [get_financial_insight, call_mcp_tool_ok session provider tool_name body hs hp]
  simp only [hg, hj]
  rfl

/-- Run of `get_financial_insight` in which the generator text does not parse
as JSON after fence cleaning: an ordinary `json.JSONDecodeError` escapes. -/
theorem get_financial_insight_malformed (session : Option String)
    (provider : String → ProviderOutcome) (generator : String → GenOutcome)
    (tool_name prompt_template : String) (body : Json) (gtext : String)
    (hs : pyFalsy session = false) (hp : provider tool_name = .ok body)
    (hg : generator (formatPrompt prompt_template (jsonDumps body)) = .text gtext)
    (hj : jsonLoads (stripJsonFence gtext) = none) :
    get_financial_insight session provider generator tool_name prompt_template
      = (.error (.exc (jsonDecodeErrorMsg (stripJsonFence gtext))),
         [.toolCall tool_name, .generatorCall]) := by
  rw [get_financial_insight, call_mcp_tool_ok session provider tool_name body hs hp]
  simp only [hg, hj]
  rfl

/-! ### Claim theorems -/

/-- C1: for every request whose intent string is not a key of the static
`INTENT_CONFIG` table, `process_agent_request` fails with an HTTP 400 whose
detail is exactly `Intent '<intent>' not supported.` (the caller's intent
echoed) and issues zero network calls — no tool call and no generator call. -/
theorem unknown_intent_rejected_without_network (session : Option String)
    (provider : String → ProviderOutcome) (generator : String → GenOutcome)
    (request : AgentBuilderRequest)
    (h : INTENT_CONFIG_get request.intent = none) :
    process_agent_request session provider generator request
      = (.httpError 400 ("Intent \x27" ++ request.intent ++ "\x27 not supported."), []) := by
  rw [process_agent_request, h]

/-- Witness for C1 at the concrete unknown intent `transfer_funds`, with a
provider and generator that would fail loudly if contacted. -/
theorem unknown_intent_rejected_without_network_witness :
    INTENT_CONFIG_get "transfer_funds" = none ∧
    process_agent_request none (fun _ => .transportError "net down")
        (fun _ => .failure "gen down") ⟨"transfer_funds", [], "caller-1"⟩
      = (.httpError 400 "Intent \x27transfer_funds\x27 not supported.", []) :=
  ⟨by decide,
   unknown_intent_rejected_without_network none (fun _ => .transportError "net down")
     (fun _ => .failure "gen down") ⟨"transfer_funds", [], "caller-1"⟩ (by decide)⟩

/-- C2: whenever the process-wide provider session is unset, every call to
`call_mcp_tool` — for any tool name and any provider behavior — fails with
the session-not-established error as an HTTP 500, and the list of issued
network calls is empty: no HTTP call to the provider is attempted. -/
theorem unset_session_tool_call_fails (provider : String → ProviderOutcome)
    (tool_name : String) :
    call_mcp_tool none provider tool_name
      = (.error (.httpExc 500 "MCP session not established during startup."), []) := rfl

/-- Counterexample to C3 as stated: the login handshake call answered with a
non-success HTTP status (500, body `Internal Server Error`) is not treated
as a handshake failure — `startup_event` never inspects the handshake status
codes — so the process-wide session does NOT remain unset: it is set to the
backend session id. -/
theorem startup_non_success_status_still_establishes :
    startup_event "backend_session_ab12" (.response 200 "ok")
        (.response 500 "Internal Server Error") none
      = some "backend_session_ab12" ∧
    startup_event "backend_session_ab12" (.response 200 "ok")
        (.response 500 "Internal Server Error") none ≠ none :=
  ⟨rfl, by decide⟩

/-- C3 (amended): if either handshake call raises (any network/transport
failure), the exception is caught and logged, the process-wide session slot
is left unchanged — so starting from unset it remains unset and every later
tool invocation fails with the session-not-established HTTP 500 — and the
process keeps running (`startup_event` returns normally).  A handshake call
that merely completes with a non-success HTTP status is not detected as a
failure, and the session is established anyway. -/
theorem startup_exception_leaves_session_unset (backend_session_id msg msg' : String)
    (login : HttpCallResult) (st : Nat) (body : String)
    (provider : String → ProviderOutcome) (tool_name : String) :
    startup_event backend_session_id (.raiseError msg) login none = none ∧
    startup_event backend_session_id (.response st body) (.raiseError msg') none = none ∧
    call_mcp_tool (startup_event backend_session_id (.raiseError msg) login none)
        provider tool_name
      = (.error (.httpExc 500 "MCP session not established during startup."), []) :=
  ⟨rfl, rfl, rfl⟩

/-- C4: with a live session, a provider response with a non-2xx HTTP status
(an `httpx.HTTPStatusError`) makes `call_mcp_tool` fail with an HTTP 500
carrying the status code and response body; a network/timeout/transport
failure makes it fail with an HTTP 500 carrying the underlying cause; in
both cases exactly one tool call is issued (no retry); and for status 503
with body `unavailable` the error detail contains both `503` and
`unavailable`. -/
theorem provider_failure_surfaced (session : Option String)
    (provider : String → ProviderOutcome) (tool_name : String)
    (hs : pyFalsy session = false) :
    (∀ status_code text, provider tool_name = .httpStatusError status_code text →
      call_mcp_tool session provider tool_name
        = (.error (.httpExc 500 ("MCP Server returned an error: " ++
            natToString status_code ++ ". Body: " ++ text)), [.toolCall tool_name])) ∧
    (∀ msg, provider tool_name = .transportError msg →
      call_mcp_tool session provider tool_name
        = (.error (.httpExc 500 msg), [.toolCall tool_name])) ∧
    (provider tool_name = .httpStatusError 503 "unavailable" →
      ∃ a b c, (call_mcp_tool session provider tool_name).1
        = .error (.httpExc 500 (a ++ "503" ++ b ++ "unavailable" ++ c))) := by
  refine ⟨?_, ?_, ?_⟩
  · intro status_code text h
    rw [call_mcp_tool, hs, h]
    rfl
  · intro msg h
    rw [call_mcp_tool, hs, h]
    rfl
  · intro h
    refine ⟨"MCP Server returned an error: ", ". Body: ", "", ?_⟩
    rw [call_mcp_tool, hs, h]
    rfl

/-- Witness for C4: a provider answering 503/`unavailable` and one raising a
connection timeout, both invoked with a live session. -/
theorem provider_failure_surfaced_witness :
    (call_mcp_tool (some "backend_session_cd34")
        (fun _ => .httpStatusError 503 "unavailable") "fetch_net_worth"
      = (.error (.httpExc 500 "MCP Server returned an error: 503. Body: unavailable"),
         [.toolCall "fetch_net_worth"])) ∧
    (call_mcp_tool (some "backend_session_cd34")
        (fun _ => .transportError "Connection timed out") "fetch_net_worth"
      = (.error (.httpExc 500 "Connection timed out"), [.toolCall "fetch_net_worth"])) ∧
    (∃ a b c, (call_mcp_tool (some "backend_session_cd34")
        (fun _ => .httpStatusError 503 "unavailable") "fetch_net_worth").1
      = .error (.httpExc 500 (a ++ "503" ++ b ++ "unavailable" ++ c))) :=
  ⟨(provider_failure_surfaced (some "backend_session_cd34") _ "fetch_net_worth" rfl).1
     503 "unavailable" rfl,
   (provider_failure_surfaced (some "backend_session_cd34") _ "fetch_net_worth" rfl).2.1
     "Connection timed out" rfl,
   (provider_failure_surfaced (some "backend_session_cd34") _ "fetch_net_worth" rfl).2.2
     rfl⟩

/-- C5: the fence-stripping step removes a leading ```` ```json ```` marker
and trailing fence before JSON parsing: for any inner text, stripping the
wrapped text yields the whitespace-stripped inner text; concretely, the
fenced input ```` ```json\n{"a":1}\n``` ```` parses to the JSON object
`{"a": 1}`, and the unfenced input `{"a":1}` also parses to `{"a": 1}`. -/
theorem fence_stripping_step_correct :
    (∀ inner : String, stripJsonFence ("```json" ++ inner ++ "```") = pyStrip inner) ∧
    jsonLoads (stripJsonFence "```json\n\x7b\"a\":1\x7d\n```")
      = some (.obj [("a", .num 1)]) ∧
    jsonLoads (stripJsonFence "\x7b\"a\":1\x7d") = some (.obj [("a", .num 1)]) :=
  ⟨stripJsonFence_fenced, rfl, rfl⟩

/-- C6: for every supported intent, when the tool call succeeds and the
generator's reply parses (after fence cleaning) as a JSON object, the
pipeline returns `status="success"`, the `INTENT_CONFIG` entry's fixed
message, and the parsed object as `data`, having issued exactly one tool
call and one generator call in that order. -/
theorem supported_intent_success (session : Option String)
    (provider : String → ProviderOutcome) (generator : String → GenOutcome)
    (request : AgentBuilderRequest) (config : IntentConfigEntry) (body : Json)
    (gtext : String) (fields : List (String × Json))
    (hs : pyFalsy session = false)
    (hc : INTENT_CONFIG_get request.intent = some config)
    (hp : provider config.tool_name = .ok body)
    (hg : generator (formatPrompt config.prompt_template (jsonDumps body)) = .text gtext)
    (hj : jsonLoads (stripJsonFence gtext) = some (.obj fields)) :
    process_agent_request session provider generator request
      = (.success ⟨"success", config.message, .obj fields⟩,
         [.toolCall config.tool_name, .generatorCall]) := by
  have hins := get_financial_insight_ok session provider generator config.tool_name
    config.prompt_template body gtext (.obj fields) hs hp hg hj
  rw [process_agent_request, hc]
  simp only [hins]

/-- Witness for C6: the specification's end-to-end scenario — intent
`fetch_net_worth`, tool payload `{"assets": 1000, "liabilities": 200}`,
stubbed generator reply — produces exactly the expected success response. -/
theorem supported_intent_success_witness :
    process_agent_request (some "backend_session_ef56")
      (fun _ => .ok (.obj [("assets", .num 1000), ("liabilities", .num 200)]))
      (fun _ => .text "\x7b\"summary\": \"ok\", \"details\": \x7b\"total_net_worth\": 800, \"assets\": 1000, \"liabilities\": 200\x7d\x7d")
      ⟨"fetch_net_worth", [], "caller-42"⟩
      = (.success ⟨"success", "Here\x27s your net worth summary:",
          .obj [("summary", .str "ok"),
                ("details", .obj [("total_net_worth", .num 800), ("assets", .num 1000),
                                  ("liabilities", .num 200)])]⟩,
         [.toolCall "fetch_net_worth", .generatorCall]) :=
  supported_intent_success (some "backend_session_ef56")
    (fun _ => .ok (.obj [("assets", .num 1000), ("liabilities", .num 200)]))
    (fun _ => .text "\x7b\"summary\": \"ok\", \"details\": \x7b\"total_net_worth\": 800, \"assets\": 1000, \"liabilities\": 200\x7d\x7d")
    ⟨"fetch_net_worth", [], "caller-42"⟩
    ⟨"fetch_net_worth", NET_WORTH_PROMPT, "Here\x27s your net worth summary:"⟩
    (.obj [("assets", .num 1000), ("liabilities", .num 200)])
    "\x7b\"summary\": \"ok\", \"details\": \x7b\"total_net_worth\": 800, \"assets\": 1000, \"liabilities\": 200\x7d\x7d"
    [("summary", .str "ok"),
     ("details", .obj [("total_net_worth", .num 800), ("assets", .num 1000),
                       ("liabilities", .num 200)])]
    rfl rfl rfl rfl rfl

/-- C7: for every generator reply whose text, after fence cleaning, is not
parseable JSON, the pipeline fails with an HTTP 500 server error — the
`json.JSONDecodeError` is wrapped as `An internal error occurred: ...` — and
the call trace shows a single generator call: no partial recovery and no
re-prompting. -/
theorem malformed_insight_surfaced (session : Option String)
    (provider : String → ProviderOutcome) (generator : String → GenOutcome)
    (request : AgentBuilderRequest) (config : IntentConfigEntry) (body : Json)
    (gtext : String)
    (hs : pyFalsy session = false)
    (hc : INTENT_CONFIG_get request.intent = some config)
    (hp : provider config.tool_name = .ok body)
    (hg : generator (formatPrompt config.prompt_template (jsonDumps body)) = .text gtext)
    (hj : jsonLoads (stripJsonFence gtext) = none) :
    process_agent_request session provider generator request
      = (.httpError 500 ("An internal error occurred: " ++
           jsonDecodeErrorMsg (stripJsonFence gtext)),
         [.toolCall config.tool_name, .generatorCall]) := by
  have hins := get_financial_insight_malformed session provider generator config.tool_name
    config.prompt_template body gtext hs hp hg hj
  rw [process_agent_request, hc]
  simp only [hins]

/-- Witness for C7: a generator reply that is plain prose, for the supported
intent `analyze_spending`, is surfaced as HTTP 500. -/
theorem malformed_insight_surfaced_witness :
    process_agent_request (some "backend_session_0011")
      (fun _ => .ok (.obj [("transactions", .arr [])]))
      (fun _ => .text "The summary could not be produced")
      ⟨"analyze_spending", [], "caller-7"⟩
      = (.httpError 500
          "An internal error occurred: Expecting value while parsing: The summary could not be produced",
         [.toolCall "fetch_bank_transactions", .generatorCall]) :=
  malformed_insight_surfaced (some "backend_session_0011")
    (fun _ => .ok (.obj [("transactions", .arr [])]))
    (fun _ => .text "The summary could not be produced")
    ⟨"analyze_spending", [], "caller-7"⟩
    ⟨"fetch_bank_transactions", SPENDING_ANALYSIS_PROMPT,
     "Here\x27s a summary of your spending habits:"⟩
    (.obj [("transactions", .arr [])])
    "The summary could not be produced"
    rfl rfl rfl rfl rfl

/-- C8: the default intent table holds exactly three intents —
`analyze_spending` mapping to tool `fetch_bank_transactions`,
`fetch_net_worth` to `fetch_net_worth`, `fetch_credit_report` to
`fetch_credit_report`, each with its verbatim fixed message — and lookups
for every other intent name fail; `INTENT_CONFIG_get` is a pure function
into immutable `IntentConfigEntry` records. -/
theorem intent_config_table_exact :
    INTENT_CONFIG_get "analyze_spending"
      = some ⟨"fetch_bank_transactions", SPENDING_ANALYSIS_PROMPT,
              "Here\x27s a summary of your spending habits:"⟩ ∧
    INTENT_CONFIG_get "fetch_net_worth"
      = some ⟨"fetch_net_worth", NET_WORTH_PROMPT,
              "Here\x27s your net worth summary:"⟩ ∧
    INTENT_CONFIG_get "fetch_credit_report"
      = some ⟨"fetch_credit_report", CREDIT_REPORT_PROMPT,
              "Here\x27s your credit report summary:"⟩ ∧
    ∀ intent : String, intent ≠ "analyze_spending" → intent ≠ "fetch_net_worth" →
      intent ≠ "fetch_credit_report" → INTENT_CONFIG_get intent = none := by
  refine ⟨rfl, rfl, rfl, ?_⟩
  intro intent h1 h2 h3
  have e1 : (intent == "analyze_spending") = false := beq_eq_false_iff_ne.mpr h1
  have e2 : (intent == "fetch_net_worth") = false := beq_eq_false_iff_ne.mpr h2
  have e3 : (intent == "fetch_credit_report") = false := beq_eq_false_iff_ne.mpr h3
  simp [INTENT_CONFIG_get, INTENT_CONFIG, List.lookup, e1, e2, e3]

/-- Witness for C8 at the concrete unknown intent `make_coffee`. -/
theorem intent_config_table_exact_witness :
    INTENT_CONFIG_get "make_coffee" = none :=
  intent_config_table_exact.2.2.2 "make_coffee" (by decide) (by decide) (by decide)

/-- C9: the `entities` and `session_id` fields of an inbound request do not
influence the outcome: two requests with the same intent, processed against
the same session state, provider and generator, produce identical results
and identical call traces. -/
theorem entities_and_session_id_ignored (session : Option String)
    (provider : String → ProviderOutcome) (generator : String → GenOutcome)
    (intent : String) (entities1 entities2 : List (String × Json))
    (sid1 sid2 : String) :
    process_agent_request session provider generator ⟨intent, entities1, sid1⟩
      = process_agent_request session provider generator ⟨intent, entities2, sid2⟩ := rfl

/-- C10: for every generator text that starts with the seven characters
```` ```json ````, the cleaning step takes the Python slice `[7:-3]` — first
seven and last three characters removed — and strips whitespace, whether or
not the text actually ends with a closing fence; concretely, the reply
```` ```json{"a":1} ```` (no trailing fence) is cut down to `{"a"` before
parsing. -/
theorem fence_prefix_unconditionally_slices :
    (∀ s : String, pyStartsWith s "```json" = true →
      stripJsonFence s
        = pyStrip (String.mk ((s.data.take (s.data.length - 3)).drop 7))) ∧
    stripJsonFence "```json\x7b\"a\":1\x7d" = "\x7b\"a\"" := by
  constructor
  · intro s h
    rw [stripJsonFence, h, if_pos rfl, List.drop_take, Nat.sub_sub]
  · rfl

/-- Witness for C10 at the fence-opened, fence-unterminated concrete reply
```` ```json{"a":1} ````. -/
theorem fence_prefix_unconditionally_slices_witness :
    pyStartsWith "```json\x7b\"a\":1\x7d" "```json" = true ∧
    stripJsonFence "```json\x7b\"a\":1\x7d"
      = pyStrip (String.mk (("```json\x7b\"a\":1\x7d".data.take
          ("```json\x7b\"a\":1\x7d".data.length - 3)).drop 7)) :=
  ⟨rfl, fence_prefix_unconditionally_slices.1 "```json\x7b\"a\":1\x7d" rfl⟩

end FiMcpBackend
